import Mathlib

/-!
Shallow embedding of `Source/ParkourGame/ParkourGameCharacter.cpp`
(repository JaberHQ/ParkourGameJam).

The C++ class `AParkourGameCharacter` is a thin behavioural layer over the
Unreal engine: per-frame sphere traces, a climb transition, sprint speed
toggles and yaw-relative movement input.  We model the character's mutable
state as a record over exact rationals (the claims are about which values are
written, with constant thresholds, so `Rat` is a faithful stand-in for
`float`), and every method of the class as a state-transformer.  The engine's
collision query is abstracted as an oracle mapping a trace request
(start point, end point, sphere radius) to an optional hit result; each trace
call is also recorded in a log so that claims about how many traces a frame
casts, and in which order, are statable.
-/

namespace ParkourGame

/-- Engine vector type `FVector` (x, y, z components). -/
structure FVector where
  x : ℚ
  y : ℚ
  z : ℚ
  deriving DecidableEq, Repr

/-- Engine rotator type `FRotator` (pitch, yaw, roll); the C++ constructor
`FRotator(Pitch, Yaw, Roll)` takes the components in this order. -/
structure FRotator where
  pitch : ℚ
  yaw : ℚ
  roll : ℚ
  deriving DecidableEq, Repr

instance : Add FVector :=
  ⟨fun a b => ⟨a.x + b.x, a.y + b.y, a.z + b.z⟩⟩

instance : Sub FVector :=
  ⟨fun a b => ⟨a.x - b.x, a.y - b.y, a.z - b.z⟩⟩

/-- `v * k` on `FVector` (componentwise scaling by a scalar). -/
def FVector.scale (k : ℚ) (v : FVector) : FVector :=
  ⟨k * v.x, k * v.y, k * v.z⟩

/-- The zero vector: value of an `FVector` inside a force-initialised
(`ForceInit`) engine struct. -/
def FVector.zero : FVector :=
  ⟨0, 0, 0⟩

/-- The fields of the engine's `FHitResult` that this class reads. -/
structure FHitResult where
  Normal : FVector
  Location : FVector
  deriving DecidableEq, Repr

/-- `FHitResult hit( ForceInit )`: all vector fields zero-initialised. -/
def forceInitHit : FHitResult :=
  ⟨FVector.zero, FVector.zero⟩

/-- The axis selector `EAxis::X / Y / Z` used with
`FRotationMatrix(...).GetUnitAxis`. -/
inductive EAxis where
  | X
  | Y
  | Z
  deriving DecidableEq, Repr

/-- Engine movement modes (`EMovementMode`). -/
inductive EMovementMode where
  | MOVE_None
  | MOVE_Walking
  | MOVE_NavWalking
  | MOVE_Falling
  | MOVE_Swimming
  | MOVE_Flying
  | MOVE_Custom
  deriving DecidableEq, Repr

/-- The one montage asset the class references (`UPROPERTY Climb`). -/
inductive MontageRef where
  | Climb
  deriving DecidableEq, Repr

/-- Montage playback state of the mesh's anim instance, as far as this class
drives it: nothing playing, a montage playing, or a montage paused. -/
inductive AnimMontageState where
  | idle
  | playing (m : MontageRef)
  | paused (m : MontageRef)
  deriving DecidableEq, Repr

/-- One sphere-trace request issued to
`UKismetSystemLibrary::SphereTraceSingle`: start point, end point, sphere
radius.  (The remaining C++ arguments - world, trace channel, ignore list,
debug-draw mode, colour - do not affect which geometry is queried and are
engine plumbing, so they are not part of the request record.) -/
structure TraceCall where
  start : FVector
  endPt : FVector
  radius : ℚ
  deriving DecidableEq, Repr

/-- The engine world's answer to a sphere-trace request: `none` for no hit,
`some h` for a blocking hit `h`.  Quantifying over oracles quantifies over
all possible worlds. -/
def TraceOracle : Type :=
  FVector → FVector → ℚ → Option FHitResult

/-- `UKismetSystemLibrary::SphereTraceSingle(..., OutHit, ...)`: returns the
boolean hit flag and the final value of the out-parameter `OutHit`, whose
value on a miss stays at its (force-initialised) input value. -/
def SphereTraceSingle (response : Option FHitResult) (hitIn : FHitResult) :
    Bool × FHitResult :=
  match response with
  | some h => (true, h)
  | none => (false, hitIn)

/-- `UKismetMathLibrary::InRange_FloatFloat(Value, Min, Max, InclusiveMin,
InclusiveMax)`. -/
def InRange_FloatFloat (value lo hi : ℚ) (inclusiveMin inclusiveMax : Bool) :
    Bool :=
  (if inclusiveMin then decide (lo ≤ value) else decide (lo < value)) &&
  (if inclusiveMax then decide (value ≤ hi) else decide (value < hi))

/-- The mutable state of one `AParkourGameCharacter`, restricted to what its
methods read or write: the three members declared by the class
(`m_wallNormal`, `m_wallLocation`, `m_isClimbing`), the engine-side state it
drives (movement mode, velocity, max walk speed, montage state, accumulated
movement input, control rotation, jump flag), the pose queried by the traces
(actor location, forward vector, Z of the mesh's `HipsSocket`), and the two
turn-rate configuration members. -/
structure Character where
  m_wallNormal : FVector
  m_wallLocation : FVector
  m_isClimbing : Bool
  movementMode : EMovementMode
  velocity : FVector
  maxWalkSpeed : ℚ
  anim : AnimMontageState
  inputLog : List (FVector × ℚ)
  controller : Option FRotator
  actorLocation : FVector
  forwardVector : FVector
  hipsSocketZ : ℚ
  baseTurnRate : ℚ
  baseLookUpRate : ℚ
  pressedJump : Bool
  deriving DecidableEq, Repr

/-- The constructor `AParkourGameCharacter::AParkourGameCharacter()` as it
acts on the modelled state: the initialiser list value-initialises
`m_wallNormal` and `m_wallLocation` (UE's `FVector()` leaves the components
unspecified, so they are passed in) and sets `m_isClimbing` to `false`; the
body sets the turn rates to 45.  Component creation (capsule, camera boom,
follow camera) and the movement-component configuration touch engine objects
outside the modelled state.  `base` carries the engine-provided parts of the
state (pose, controller, defaults). -/
def construct (base : Character) (initNormal initLocation : FVector) :
    Character :=
  { base with
      m_wallNormal := initNormal
      m_wallLocation := initLocation
      m_isClimbing := false
      baseTurnRate := 45
      baseLookUpRate := 45 }

/-- `ACharacter::PlayAnimMontage(Montage, 1.0f)`: starts the montage on the
mesh's anim instance. -/
def PlayAnimMontage (m : MontageRef) (c : Character) : Character :=
  { c with anim := AnimMontageState.playing m }

/-- `UAnimInstance::Montage_Pause()`: pauses the currently playing montage. -/
def Montage_Pause (c : Character) : Character :=
  match c.anim with
  | AnimMontageState.playing m => { c with anim := AnimMontageState.paused m }
  | _ => c

/-- `ACharacter::AddMovementInput(Direction, Value)`: accumulates a scaled
world-space movement input.  The log records each added (direction, scale)
pair in order. -/
def AddMovementInput (direction : FVector) (value : ℚ) (c : Character) :
    Character :=
  { c with inputLog := c.inputLog ++ [(direction, value)] }

/-- `UCharacterMovementComponent::SetMovementMode(mode)`. -/
def SetMovementMode (mode : EMovementMode) (c : Character) : Character :=
  { c with movementMode := mode }

/-- `UMovementComponent::StopMovementImmediately()`: zeroes the velocity. -/
def StopMovementImmediately (c : Character) : Character :=
  { c with velocity := FVector.zero }

/-- `AParkourGameCharacter::Hang()`: play the Climb montage, pause it, set
the climbing flag. -/
def Hang (c : Character) : Character :=
  { Montage_Pause (PlayAnimMontage MontageRef.Climb c) with m_isClimbing := true }

/-- Start point of the forward trace: `GetActorLocation()`. -/
def forwardTraceStart (c : Character) : FVector :=
  c.actorLocation

/-- End point of the forward trace:
`( GetActorForwardVector() * 150.0f ) + start`. -/
def forwardTraceEnd (c : Character) : FVector :=
  FVector.scale 150 c.forwardVector + forwardTraceStart c

/-- `AParkourGameCharacter::ForwardTrace()`: sphere-trace 150 units forward
with radius 10, then unconditionally copy the hit result's `Normal` and
`Location` into `m_wallNormal` / `m_wallLocation` (the boolean result `bHit`
is computed but never read).  Returns the new state and the list of trace
requests issued. -/
def ForwardTrace (oracle : TraceOracle) (c : Character) :
    Character × List TraceCall :=
  let start := forwardTraceStart c
  let endPt := forwardTraceEnd c
  let traced := SphereTraceSingle (oracle start endPt 10) forceInitHit
  let hit := traced.2
  ({ c with m_wallNormal := hit.Normal, m_wallLocation := hit.Location },
    [⟨start, endPt, 10⟩])

/-- Start point of the height trace:
`( GetActorLocation() + ( GetActorForwardVector() * 75.0f ) ) + FVector( 0, 0, 500 )`. -/
def heightTraceStart (c : Character) : FVector :=
  (c.actorLocation + FVector.scale 75 c.forwardVector) + FVector.mk 0 0 500

/-- End point of the height trace: `start - FVector( 0, 0, 500 )`. -/
def heightTraceEnd (c : Character) : FVector :=
  heightTraceStart c - FVector.mk 0 0 500

/-- `AParkourGameCharacter::HeightTrace()`: sphere-trace 500 units straight
down (radius 10) from 75 units ahead of and 500 units above the actor; if it
hits and `hit.Location.Z - HipsSocket.Z` is in the inclusive range
`[-50, 0]`, switch the movement mode to `MOVE_Flying`, stop movement
immediately and call `Hang()`.  Returns the new state and the trace requests
issued. -/
def HeightTrace (oracle : TraceOracle) (c : Character) :
    Character × List TraceCall :=
  let start := heightTraceStart c
  let endPt := heightTraceEnd c
  let traced := SphereTraceSingle (oracle start endPt 10) forceInitHit
  let bHit := traced.1
  let hit := traced.2
  let next :=
    if bHit then
      if InRange_FloatFloat (hit.Location.z - c.hipsSocketZ) (-50) 0 true true then
        Hang (StopMovementImmediately (SetMovementMode EMovementMode.MOVE_Flying c))
      else c
    else c
  (next, [⟨start, endPt, 10⟩])

/-- `AParkourGameCharacter::Tick( DeltaTime )`: calls `ForwardTrace()` then
`HeightTrace()`.  (`Super::Tick` is engine bookkeeping outside the modelled
state.)  The log concatenates the trace requests in call order. -/
def Tick (oracle : TraceOracle) (c : Character) : Character × List TraceCall :=
  let fwd := ForwardTrace oracle c
  let hgt := HeightTrace oracle fwd.1
  (hgt.1, fwd.2 ++ hgt.2)

/-- `AParkourGameCharacter::MoveForward(Value)`: with a controller and a
non-zero value, add movement input along the unit X axis of the yaw-only
control rotation, scaled by `Value`.  `unitAxis` abstracts
`FRotationMatrix(rot).GetUnitAxis(axis)`. -/
def MoveForward (unitAxis : EAxis → FRotator → FVector) (value : ℚ)
    (c : Character) : Character :=
  match c.controller with
  | some rotation =>
      if value ≠ 0 then
        let yawRotation : FRotator := ⟨0, rotation.yaw, 0⟩
        AddMovementInput (unitAxis EAxis.X yawRotation) value c
      else c
  | none => c

/-- `AParkourGameCharacter::MoveRight(Value)`: like `MoveForward` along the
unit Y axis, but additionally gated on `m_isClimbing == false`. -/
def MoveRight (unitAxis : EAxis → FRotator → FVector) (value : ℚ)
    (c : Character) : Character :=
  match c.controller with
  | some rotation =>
      if value ≠ 0 ∧ c.m_isClimbing = false then
        let yawRotation : FRotator := ⟨0, rotation.yaw, 0⟩
        AddMovementInput (unitAxis EAxis.Y yawRotation) value c
      else c
  | none => c

/-- `AParkourGameCharacter::StartSprint()`. -/
def StartSprint (c : Character) : Character :=
  { c with maxWalkSpeed := 1000 }

/-- `AParkourGameCharacter::StopSprint()`. -/
def StopSprint (c : Character) : Character :=
  { c with maxWalkSpeed := 600 }

/-- `APawn::AddControllerYawInput(Val)`: rotation input feeding the control
rotation's yaw. -/
def AddControllerYawInput (v : ℚ) (c : Character) : Character :=
  { c with controller := c.controller.map (fun r => { r with yaw := r.yaw + v }) }

/-- `APawn::AddControllerPitchInput(Val)`. -/
def AddControllerPitchInput (v : ℚ) (c : Character) : Character :=
  { c with controller := c.controller.map (fun r => { r with pitch := r.pitch + v }) }

/-- `AParkourGameCharacter::TurnAtRate(Rate)`; `dt` is
`GetWorld()->GetDeltaSeconds()`. -/
def TurnAtRate (rate dt : ℚ) (c : Character) : Character :=
  AddControllerYawInput (rate * c.baseTurnRate * dt) c

/-- `AParkourGameCharacter::LookUpAtRate(Rate)`. -/
def LookUpAtRate (rate dt : ℚ) (c : Character) : Character :=
  AddControllerPitchInput (rate * c.baseLookUpRate * dt) c

/-- `ACharacter::Jump()` (inherited; bound directly and called from
`TouchStarted`): requests a jump. -/
def Jump (c : Character) : Character :=
  { c with pressedJump := true }

/-- `ACharacter::StopJumping()` (inherited; called from `TouchStopped`). -/
def StopJumping (c : Character) : Character :=
  { c with pressedJump := false }

/-- `AParkourGameCharacter::TouchStarted`: calls `Jump()`. -/
def TouchStarted (c : Character) : Character :=
  Jump c

/-- `AParkourGameCharacter::TouchStopped`: calls `StopJumping()`. -/
def TouchStopped (c : Character) : Character :=
  StopJumping c

/-- `AParkourGameCharacter::OnResetVR()`: resets the HMD orientation, which
is entirely engine-side state; the character state is untouched. -/
def OnResetVR (c : Character) : Character :=
  c

/-- `AParkourGameCharacter::SetupPlayerInputComponent`: registers input
bindings on the input component; the character state is untouched. -/
def SetupPlayerInputComponent (c : Character) : Character :=
  c

/-- One invocation of an operation of the class (or of an inherited method it
binds or calls), carrying the engine inputs the invocation depends on. -/
inductive Op where
  | tick (oracle : TraceOracle)
  | forwardTrace (oracle : TraceOracle)
  | heightTrace (oracle : TraceOracle)
  | hang
  | moveForward (unitAxis : EAxis → FRotator → FVector) (value : ℚ)
  | moveRight (unitAxis : EAxis → FRotator → FVector) (value : ℚ)
  | startSprint
  | stopSprint
  | turnAtRate (rate dt : ℚ)
  | lookUpAtRate (rate dt : ℚ)
  | jump
  | stopJumping
  | touchStarted
  | touchStopped
  | onResetVR
  | setupPlayerInput

/-- Apply one operation to the character state. -/
def applyOp (op : Op) (c : Character) : Character :=
  match op with
  | Op.tick oracle => (Tick oracle c).1
  | Op.forwardTrace oracle => (ForwardTrace oracle c).1
  | Op.heightTrace oracle => (HeightTrace oracle c).1
  | Op.hang => Hang c
  | Op.moveForward ua v => MoveForward ua v c
  | Op.moveRight ua v => MoveRight ua v c
  | Op.startSprint => StartSprint c
  | Op.stopSprint => StopSprint c
  | Op.turnAtRate r dt => TurnAtRate r dt c
  | Op.lookUpAtRate r dt => LookUpAtRate r dt c
  | Op.jump => Jump c
  | Op.stopJumping => StopJumping c
  | Op.touchStarted => TouchStarted c
  | Op.touchStopped => TouchStopped c
  | Op.onResetVR => OnResetVR c
  | Op.setupPlayerInput => SetupPlayerInputComponent c

/-- Run a sequence of operations left to right. -/
def runOps (ops : List Op) (c : Character) : Character :=
  ops.foldl (fun s op => applyOp op s) c

/-- Run a sequence of frames, each with its own world response. -/
def runTicks (oracles : List TraceOracle) (c : Character) : Character :=
  oracles.foldl (fun s oracle => (Tick oracle s).1) c

/-- A concrete engine-provided base state used to evaluate the theorems on
concrete inputs: character at the origin facing +X, hips socket at height 0,
possessed by a controller whose control rotation has yaw 90. -/
def baseChar : Character :=
  { m_wallNormal := FVector.zero
    m_wallLocation := FVector.zero
    m_isClimbing := false
    movementMode := EMovementMode.MOVE_Walking
    velocity := FVector.zero
    maxWalkSpeed := 600
    anim := AnimMontageState.idle
    inputLog := []
    controller := some ⟨0, 90, 0⟩
    actorLocation := FVector.zero
    forwardVector := ⟨1, 0, 0⟩
    hipsSocketZ := 0
    baseTurnRate := 45
    baseLookUpRate := 45
    pressedJump := false }

/-- The concrete character right after running the constructor on the base
state. -/
def initChar : Character :=
  construct baseChar FVector.zero FVector.zero

/-- A concrete hit whose Z sits 10 units below the hips socket of `initChar`,
inside the acceptance band [-50, 0]. -/
def ledgeHit : FHitResult :=
  ⟨⟨0, 0, 1⟩, ⟨75, 0, -10⟩⟩

/-- A world in which every sphere trace hits `ledgeHit`. -/
def ledgeOracle : TraceOracle :=
  fun _ _ _ => some ledgeHit

/-- A world in which every sphere trace misses. -/
def missOracle : TraceOracle :=
  fun _ _ _ => none

/-- The concrete character after one frame in the ledge world: it has entered
the climbing state. -/
def climbChar : Character :=
  (Tick ledgeOracle initChar).1

/-- A concrete stand-in for `FRotationMatrix(rot).GetUnitAxis(axis)`, used
only to evaluate theorems that are universally quantified over the axis
function. -/
def unitAxisW : EAxis → FRotator → FVector :=
  fun _ _ => ⟨1, 0, 0⟩

/-! Helper lemmas shared by the claim theorems. -/

/-- The range check of `HeightTrace` holds exactly on the inclusive band. -/
theorem inRange_inclusive_iff (v lo hi : ℚ) :
    InRange_FloatFloat v lo hi true true = true ↔ lo ≤ v ∧ v ≤ hi := by
  simp [InRange_FloatFloat]

/-- `Hang` always leaves the climbing flag set. -/
theorem hang_isClimbing (c : Character) : (Hang c).m_isClimbing = true :=
  rfl

/-- `HeightTrace` never clears the climbing flag. -/
theorem heightTrace_isClimbing_mono (oracle : TraceOracle) (c : Character)
    (h : c.m_isClimbing = true) :
    (HeightTrace oracle c).1.m_isClimbing = true := by
  unfold HeightTrace
  cases hr : oracle (heightTraceStart c) (heightTraceEnd c) 10 with
  | none => simpa [SphereTraceSingle, hr] using h
  | some hit =>
      by_cases hb :
        InRange_FloatFloat (hit.Location.z - c.hipsSocketZ) (-50) 0 true true = true
      · simp [SphereTraceSingle, hr, hb, hang_isClimbing]
      · simp [SphereTraceSingle, hr, hb, h]

/-- `ForwardTrace` never touches the climbing flag. -/
theorem forwardTrace_isClimbing (oracle : TraceOracle) (c : Character) :
    (ForwardTrace oracle c).1.m_isClimbing = c.m_isClimbing :=
  rfl

/-- One frame never clears the climbing flag. -/
theorem tick_isClimbing_mono (oracle : TraceOracle) (c : Character)
    (h : c.m_isClimbing = true) : (Tick oracle c).1.m_isClimbing = true := by
  unfold Tick
  exact heightTrace_isClimbing_mono oracle _
    ((forwardTrace_isClimbing oracle c).trans h)

/-- No single operation of the class clears the climbing flag. -/
theorem applyOp_isClimbing_mono (op : Op) (c : Character)
    (h : c.m_isClimbing = true) : (applyOp op c).m_isClimbing = true := by
  cases op with
  | tick oracle => exact tick_isClimbing_mono oracle c h
  | forwardTrace oracle => exact (forwardTrace_isClimbing oracle c).trans h
  | heightTrace oracle => exact heightTrace_isClimbing_mono oracle c h
  | hang => exact hang_isClimbing c
  | moveForward ua v =>
      show (MoveForward ua v c).m_isClimbing = true
      unfold MoveForward
      cases c.controller with
      | none => exact h
      | some rot => split <;> first | exact h | (split <;> exact h)
  | moveRight ua v =>
      show (MoveRight ua v c).m_isClimbing = true
      unfold MoveRight
      cases c.controller with
      | none => exact h
      | some rot => split <;> first | exact h | (split <;> exact h)
  | startSprint => exact h
  | stopSprint => exact h
  | turnAtRate r dt => exact h
  | lookUpAtRate r dt => exact h
  | jump => exact h
  | stopJumping => exact h
  | touchStarted => exact h
  | touchStopped => exact h
  | onResetVR => exact h
  | setupPlayerInput => exact h

/-- No sequence of operations clears the climbing flag. -/
theorem runOps_isClimbing_mono (ops : List Op) (c : Character)
    (h : c.m_isClimbing = true) : (runOps ops c).m_isClimbing = true := by
  induction ops generalizing c with
  | nil => exact h
  | cons op rest ih => exact ih (applyOp op c) (applyOp_isClimbing_mono op c h)

/-- No sequence of frames clears the climbing flag. -/
theorem runTicks_isClimbing_mono (oracles : List TraceOracle) (c : Character)
    (h : c.m_isClimbing = true) : (runTicks oracles c).m_isClimbing = true := by
  induction oracles generalizing c with
  | nil => exact h
  | cons oracle rest ih =>
      exact ih (Tick oracle c).1 (tick_isClimbing_mono oracle c h)

/-- Evaluating the concrete frame: one tick in the ledge world puts the
constructed character into the climbing state. -/
theorem climbChar_isClimbing : climbChar.m_isClimbing = true := by
  norm_num [climbChar, initChar, baseChar, construct, Tick, ForwardTrace, HeightTrace,
    SphereTraceSingle, ledgeOracle, ledgeHit, InRange_FloatFloat, Hang, PlayAnimMontage,
    Montage_Pause, StopMovementImmediately, SetMovementMode, forceInitHit]

/-- The concrete frame does not touch the controller. -/
theorem climbChar_controller : climbChar.controller = some ⟨0, 90, 0⟩ := by
  norm_num [climbChar, initChar, baseChar, construct, Tick, ForwardTrace, HeightTrace,
    SphereTraceSingle, ledgeOracle, ledgeHit, InRange_FloatFloat, Hang, PlayAnimMontage,
    Montage_Pause, StopMovementImmediately, SetMovementMode, forceInitHit]

/-! The claim theorems. -/

/-- Claim C1: whenever the downward trace reports a hit whose Z minus the
hips-socket Z lies in the inclusive band [-50, 0], `HeightTrace` transitions
the character into the climbing pose: movement mode set to `MOVE_Flying`,
movement stopped immediately (velocity zeroed), the Climb montage played and
paused, and `m_isClimbing` set to true. -/
theorem c1_ledge_in_band_enters_climb (oracle : TraceOracle) (c : Character)
    (hit : FHitResult)
    (hres : oracle (heightTraceStart c) (heightTraceEnd c) 10 = some hit)
    (hlo : -50 ≤ hit.Location.z - c.hipsSocketZ)
    (hhi : hit.Location.z - c.hipsSocketZ ≤ 0) :
    (HeightTrace oracle c).1.movementMode = EMovementMode.MOVE_Flying ∧
    (HeightTrace oracle c).1.velocity = FVector.zero ∧
    (HeightTrace oracle c).1.anim = AnimMontageState.paused MontageRef.Climb ∧
    (HeightTrace oracle c).1.m_isClimbing = true := by
  have hb :
      InRange_FloatFloat (hit.Location.z - c.hipsSocketZ) (-50) 0 true true = true :=
    (inRange_inclusive_iff _ _ _).mpr ⟨hlo, hhi⟩
  unfold HeightTrace
  simp [SphereTraceSingle, hres, hb, Hang, StopMovementImmediately, SetMovementMode,
    PlayAnimMontage, Montage_Pause]

/-- Concrete instantiation of the C1 theorem: from the constructed character
in the ledge world, one downward trace enters the climbing pose. -/
theorem c1_witness :
    ledgeOracle (heightTraceStart initChar) (heightTraceEnd initChar) 10 = some ledgeHit ∧
    -50 ≤ ledgeHit.Location.z - initChar.hipsSocketZ ∧
    ledgeHit.Location.z - initChar.hipsSocketZ ≤ 0 ∧
    ((HeightTrace ledgeOracle initChar).1.movementMode = EMovementMode.MOVE_Flying ∧
     (HeightTrace ledgeOracle initChar).1.velocity = FVector.zero ∧
     (HeightTrace ledgeOracle initChar).1.anim = AnimMontageState.paused MontageRef.Climb ∧
     (HeightTrace ledgeOracle initChar).1.m_isClimbing = true) :=
  ⟨rfl, by norm_num [ledgeHit, initChar, construct, baseChar],
    by norm_num [ledgeHit, initChar, construct, baseChar],
    c1_ledge_in_band_enters_climb ledgeOracle initChar ledgeHit rfl
      (by norm_num [ledgeHit, initChar, construct, baseChar])
      (by norm_num [ledgeHit, initChar, construct, baseChar])⟩

/-- Claim C2: every frame casts exactly two sphere traces of radius 10, in
order: first the forward trace from the actor location to 150 units along the
actor's forward vector, then the downward trace starting 75 units in front of
the actor and 500 units above it, tracing straight down 500 units. -/
theorem c2_tick_casts_two_traces (oracle : TraceOracle) (c : Character) :
    (Tick oracle c).2 =
      [⟨c.actorLocation, FVector.scale 150 c.forwardVector + c.actorLocation, 10⟩,
       ⟨(c.actorLocation + FVector.scale 75 c.forwardVector) + FVector.mk 0 0 500,
        ((c.actorLocation + FVector.scale 75 c.forwardVector) + FVector.mk 0 0 500) -
          FVector.mk 0 0 500, 10⟩] := by
  unfold Tick ForwardTrace HeightTrace
  simp [forwardTraceStart, forwardTraceEnd, heightTraceStart, heightTraceEnd]

/-- Claim C3 as stated is false at a concrete reachable state: `climbChar`,
reached from the constructed character after one frame in the ledge world, is
in the climbing state, and no sequence of per-frame trace results ever
returns it to the locomotion (non-climbing) state. -/
theorem c3_counterexample :
    climbChar.m_isClimbing = true ∧
    ∀ oracles : List TraceOracle,
      (runTicks oracles climbChar).m_isClimbing = true :=
  ⟨climbChar_isClimbing,
   fun oracles => runTicks_isClimbing_mono oracles climbChar climbChar_isClimbing⟩

/-- Claim C3, amended: the per-frame trace results drive a one-way mode
switch: from every state some trace result enters the climbing state within
one frame, but the climbing state is absorbing - once `m_isClimbing` is set,
no sequence of per-frame trace results returns the character to
locomotion. -/
theorem c3_amended_one_way_switch (c : Character) :
    (∃ oracle : TraceOracle, (Tick oracle c).1.m_isClimbing = true) ∧
    (c.m_isClimbing = true →
      ∀ oracles : List TraceOracle, (runTicks oracles c).m_isClimbing = true) := by
  constructor
  · refine ⟨fun _ _ _ => some ⟨FVector.zero, ⟨0, 0, c.hipsSocketZ⟩⟩, ?_⟩
    unfold Tick ForwardTrace HeightTrace
    simp [SphereTraceSingle, InRange_FloatFloat, Hang]
  · exact fun h oracles => runTicks_isClimbing_mono oracles c h

/-- Concrete instantiation of the amended C3 theorem at the climbing state
`climbChar`. -/
theorem c3_witness :
    climbChar.m_isClimbing = true ∧
    (∃ oracle : TraceOracle, (Tick oracle climbChar).1.m_isClimbing = true) ∧
    (runTicks [missOracle, ledgeOracle] climbChar).m_isClimbing = true :=
  ⟨climbChar_isClimbing, (c3_amended_one_way_switch climbChar).1,
    (c3_amended_one_way_switch climbChar).2 climbChar_isClimbing
      [missOracle, ledgeOracle]⟩

/-- Claim C4: when the downward trace reports no hit, or a hit whose Z
relative to the hips socket lies outside the inclusive band [-50, 0],
`HeightTrace` changes no character state at all. -/
theorem c4_no_hit_or_out_of_band_no_change (oracle : TraceOracle) (c : Character)
    (h : ∀ hit : FHitResult,
      oracle (heightTraceStart c) (heightTraceEnd c) 10 = some hit →
      ¬(-50 ≤ hit.Location.z - c.hipsSocketZ ∧ hit.Location.z - c.hipsSocketZ ≤ 0)) :
    (HeightTrace oracle c).1 = c := by
  unfold HeightTrace
  cases hr : oracle (heightTraceStart c) (heightTraceEnd c) 10 with
  | none => simp [SphereTraceSingle, hr]
  | some hit =>
      have hb :
          InRange_FloatFloat (hit.Location.z - c.hipsSocketZ) (-50) 0 true true = false :=
        Bool.eq_false_iff.mpr
          (fun htrue => h hit hr ((inRange_inclusive_iff _ _ _).mp htrue))
      simp [SphereTraceSingle, hr, hb]

/-- Concrete instantiation of the C4 theorem: in a world where every trace
misses, a frame's height trace leaves the constructed character unchanged. -/
theorem c4_witness :
    (∀ hit : FHitResult,
      missOracle (heightTraceStart initChar) (heightTraceEnd initChar) 10 = some hit →
      ¬(-50 ≤ hit.Location.z - initChar.hipsSocketZ ∧
        hit.Location.z - initChar.hipsSocketZ ≤ 0)) ∧
    (HeightTrace missOracle initChar).1 = initChar :=
  ⟨fun hit hcon => by simp [missOracle] at hcon,
   c4_no_hit_or_out_of_band_no_change missOracle initChar
     (fun hit hcon => by simp [missOracle] at hcon)⟩

/-- Claim C5: sprinting is a toggle between two speed constants: pressing
Sprint sets `MaxWalkSpeed` to 1000, releasing sets it to 600, and neither
operation changes any other component of the character state. -/
theorem c5_sprint_toggle (c : Character) :
    (StartSprint c).maxWalkSpeed = 1000 ∧
    (StopSprint c).maxWalkSpeed = 600 ∧
    (StartSprint c).m_wallNormal = c.m_wallNormal ∧
    (StartSprint c).m_wallLocation = c.m_wallLocation ∧
    (StartSprint c).m_isClimbing = c.m_isClimbing ∧
    (StartSprint c).movementMode = c.movementMode ∧
    (StartSprint c).velocity = c.velocity ∧
    (StartSprint c).anim = c.anim ∧
    (StartSprint c).inputLog = c.inputLog ∧
    (StartSprint c).controller = c.controller ∧
    (StartSprint c).actorLocation = c.actorLocation ∧
    (StartSprint c).forwardVector = c.forwardVector ∧
    (StartSprint c).hipsSocketZ = c.hipsSocketZ ∧
    (StartSprint c).baseTurnRate = c.baseTurnRate ∧
    (StartSprint c).baseLookUpRate = c.baseLookUpRate ∧
    (StartSprint c).pressedJump = c.pressedJump ∧
    (StopSprint c).m_wallNormal = c.m_wallNormal ∧
    (StopSprint c).m_wallLocation = c.m_wallLocation ∧
    (StopSprint c).m_isClimbing = c.m_isClimbing ∧
    (StopSprint c).movementMode = c.movementMode ∧
    (StopSprint c).velocity = c.velocity ∧
    (StopSprint c).anim = c.anim ∧
    (StopSprint c).inputLog = c.inputLog ∧
    (StopSprint c).controller = c.controller ∧
    (StopSprint c).actorLocation = c.actorLocation ∧
    (StopSprint c).forwardVector = c.forwardVector ∧
    (StopSprint c).hipsSocketZ = c.hipsSocketZ ∧
    (StopSprint c).baseTurnRate = c.baseTurnRate ∧
    (StopSprint c).baseLookUpRate = c.baseLookUpRate ∧
    (StopSprint c).pressedJump = c.pressedJump := by
  simp [StartSprint, StopSprint]

/-- Claim C6: third-person movement is relative to the controller's yaw only:
with a controller and a non-zero axis value (climbing flag clear for
`MoveRight`), the movement input added is the unit X (resp. Y) axis of the
rotation with zero pitch and roll and the control rotation's yaw, scaled by
the value; with no controller or a zero value no movement input is added. -/
theorem c6_yaw_relative_movement (unitAxis : EAxis → FRotator → FVector)
    (v : ℚ) (c : Character) (rot : FRotator) :
    (c.controller = some rot → v ≠ 0 →
      MoveForward unitAxis v c =
        AddMovementInput (unitAxis EAxis.X ⟨0, rot.yaw, 0⟩) v c) ∧
    (c.controller = some rot → v ≠ 0 → c.m_isClimbing = false →
      MoveRight unitAxis v c =
        AddMovementInput (unitAxis EAxis.Y ⟨0, rot.yaw, 0⟩) v c) ∧
    (c.controller = none →
      MoveForward unitAxis v c = c ∧ MoveRight unitAxis v c = c) ∧
    (v = 0 → MoveForward unitAxis v c = c ∧ MoveRight unitAxis v c = c) := by
  refine ⟨?_, ?_, ?_, ?_⟩
  · intro hc hv
    unfold MoveForward
    rw [hc]
    simp [hv]
  · intro hc hv hcl
    unfold MoveRight
    rw [hc]
    simp [hv, hcl]
  · intro hc
    constructor
    · unfold MoveForward
      rw [hc]
    · unfold MoveRight
      rw [hc]
  · intro hv
    subst hv
    constructor
    · unfold MoveForward
      cases c.controller <;> simp
    · unfold MoveRight
      cases c.controller <;> simp

/-- Concrete instantiation of the C6 theorem: the constructed character with
control yaw 90 adds exactly the yaw-relative unit X input for value 1. -/
theorem c6_witness :
    initChar.controller = some ⟨0, 90, 0⟩ ∧ (1 : ℚ) ≠ 0 ∧
    MoveForward unitAxisW 1 initChar =
      AddMovementInput (unitAxisW EAxis.X ⟨0, 90, 0⟩) 1 initChar :=
  ⟨rfl, by norm_num,
    (c6_yaw_relative_movement unitAxisW 1 initChar ⟨0, 90, 0⟩).1 rfl (by norm_num)⟩

/-- Claim C7: `ForwardTrace` unconditionally overwrites `m_wallNormal` and
`m_wallLocation` with the hit result's Normal and Location, discarding the
boolean trace result; on a miss both fields become the force-initialised zero
vectors rather than retaining their previous values. -/
theorem c7_forwardTrace_unconditional_overwrite (oracle : TraceOracle)
    (c : Character) :
    (∀ hit : FHitResult,
      oracle (forwardTraceStart c) (forwardTraceEnd c) 10 = some hit →
      (ForwardTrace oracle c).1.m_wallNormal = hit.Normal ∧
      (ForwardTrace oracle c).1.m_wallLocation = hit.Location) ∧
    (oracle (forwardTraceStart c) (forwardTraceEnd c) 10 = none →
      (ForwardTrace oracle c).1.m_wallNormal = FVector.zero ∧
      (ForwardTrace oracle c).1.m_wallLocation = FVector.zero) := by
  constructor
  · intro hit hr
    unfold ForwardTrace
    simp [SphereTraceSingle, hr]
  · intro hr
    unfold ForwardTrace
    simp [SphereTraceSingle, hr, forceInitHit]

/-- Concrete instantiation of the C7 theorem: on a missed forward trace, the
wall fields of the constructed character are zeroed. -/
theorem c7_witness :
    missOracle (forwardTraceStart initChar) (forwardTraceEnd initChar) 10 = none ∧
    ((ForwardTrace missOracle initChar).1.m_wallNormal = FVector.zero ∧
     (ForwardTrace missOracle initChar).1.m_wallLocation = FVector.zero) :=
  ⟨rfl, (c7_forwardTrace_unconditional_overwrite missOracle initChar).2 rfl⟩

/-- Claim C8: while the character is climbing, `MoveRight` is ignored for
every axis value, but `MoveForward` is not gated on the climbing flag and
still adds its yaw-relative movement input for every non-zero value with a
controller. -/
theorem c8_climb_gates_moveRight_not_moveForward
    (unitAxis : EAxis → FRotator → FVector) (v : ℚ) (c : Character)
    (rot : FRotator) (hclimb : c.m_isClimbing = true) :
    MoveRight unitAxis v c = c ∧
    (c.controller = some rot → v ≠ 0 →
      MoveForward unitAxis v c =
        AddMovementInput (unitAxis EAxis.X ⟨0, rot.yaw, 0⟩) v c) := by
  constructor
  · unfold MoveRight
    cases c.controller with
    | none => rfl
    | some r => simp [hclimb]
  · intro hc hv
    unfold MoveForward
    rw [hc]
    simp [hv]

/-- Concrete instantiation of the C8 theorem at the climbing state
`climbChar`. -/
theorem c8_witness :
    climbChar.m_isClimbing = true ∧
    climbChar.controller = some ⟨0, 90, 0⟩ ∧
    MoveRight unitAxisW 2 climbChar = climbChar ∧
    MoveForward unitAxisW 2 climbChar =
      AddMovementInput (unitAxisW EAxis.X ⟨0, 90, 0⟩) 2 climbChar := by
  have h :=
    c8_climb_gates_moveRight_not_moveForward unitAxisW 2 climbChar ⟨0, 90, 0⟩
      climbChar_isClimbing
  exact ⟨climbChar_isClimbing, climbChar_controller, h.1,
    h.2 climbChar_controller (by norm_num)⟩

/-- Claim C9: the climbing flag is absorbing: the constructor initialises
`m_isClimbing` to false, the only writer `Hang` sets it to true, and no
sequence of operations of the class ever resets it - once true it remains
true forever. -/
theorem c9_isClimbing_absorbing :
    (∀ base : Character, ∀ iN iL : FVector,
      (construct base iN iL).m_isClimbing = false) ∧
    (∀ c : Character, (Hang c).m_isClimbing = true) ∧
    (∀ c : Character, c.m_isClimbing = true →
      ∀ ops : List Op, (runOps ops c).m_isClimbing = true) :=
  ⟨fun _ _ _ => rfl, fun c => hang_isClimbing c,
   fun c h ops => runOps_isClimbing_mono ops c h⟩

/-- Concrete instantiation of the C9 theorem: the constructed character is
not climbing; `climbChar` is, and stays climbing across a concrete mixed
sequence of operations. -/
theorem c9_witness :
    initChar.m_isClimbing = false ∧
    climbChar.m_isClimbing = true ∧
    (runOps [Op.startSprint, Op.touchStarted, Op.moveRight unitAxisW 1,
      Op.tick missOracle, Op.stopSprint] climbChar).m_isClimbing = true :=
  ⟨c9_isClimbing_absorbing.1 baseChar FVector.zero FVector.zero,
   climbChar_isClimbing,
   c9_isClimbing_absorbing.2.2 climbChar climbChar_isClimbing
     [Op.startSprint, Op.touchStarted, Op.moveRight unitAxisW 1,
      Op.tick missOracle, Op.stopSprint]⟩

end ParkourGame
